import Mathlib

/-!
Shallow embedding of `sql_db/core.py` (repository ZingyKizz/sql_db).

The repository provides an abstract `SQLSession` class with two dialect
subclasses, `MSSQLSession` and `PostgreSQLSession`.  Python values passed to
the runtime-type-checked methods are modelled by the inductive `PyVal`;
Python exceptions by `PyError` (class plus message plus optional cause, since
`df_to_db` raises an `Exception` chained `from` a `ValueError`).  Side effects
performed against the external driver and the standard output channel are
recorded in an explicit `Effect` trace: a method of the source is embedded as
a function returning its result (an `Except` when the Python code may raise)
together with the list of effects it performed, in order.  Mutation of `self`
(only `close` assigns to `self.is_connected`) is embedded by state passing.
-/

/-- Python runtime values, as far as the type checks of the source
distinguish them: strings, integers, booleans, `None`, and lists. -/
inductive PyVal where
  | str (s : String)
  | int (n : Int)
  | bool (b : Bool)
  | none
  | list (xs : List PyVal)

/-- `isinstance(v, six.string_types)`. -/
def PyVal.isStr : PyVal → Bool
  | .str _ => true
  | _ => false

/-- `isinstance(v, list)`. -/
def PyVal.isList : PyVal → Bool
  | .list _ => true
  | _ => false

/-- `v is None`. -/
def PyVal.isNone : PyVal → Bool
  | .none => true
  | _ => false

/-- Whether the value is a Python sequence (strings and lists are the
sequence types representable in `PyVal`; ints, booleans and `None` are not
sequences). -/
def PyVal.isSequence : PyVal → Bool
  | .str _ => true
  | .list _ => true
  | _ => false

/-- The single-quote character, used by Python `repr` of strings. -/
def squote : String := String.mk [Char.ofNat 39]

mutual

/-- Python `repr(v)`. -/
def PyVal.pyRepr : PyVal → String
  | .str s => squote ++ s ++ squote
  | .int n => toString n
  | .bool b => if b then "True" else "False"
  | .none => "None"
  | .list xs => "[" ++ String.intercalate ", " (pyReprList xs) ++ "]"

/-- `repr` of every element of a list, in order. -/
def pyReprList : List PyVal → List String
  | [] => []
  | x :: xs => x.pyRepr :: pyReprList xs

end

/-- Python `str(v)` — what an f-string interpolation produces. -/
def PyVal.pyStr : PyVal → String
  | .str s => s
  | v => v.pyRepr

/-- The class of a raised Python exception. -/
inductive PyErrClass where
  | typeError
  | valueError
  | exception
  | notImplementedError
deriving DecidableEq, Repr

/-- A raised Python exception: its class, its message, and the class of the
exception it was raised `from`, when any. -/
structure PyError where
  cls : PyErrClass
  msg : String
  cause : Option PyErrClass
deriving DecidableEq, Repr

/-- A pandas DataFrame, abstract: the repository only passes it through to
the external library. -/
structure DataFrame where
  id : Nat
deriving DecidableEq, Repr

/-- The two concrete subclasses of `SQLSession`. -/
inductive Dialect where
  | mssql
  | postgres
deriving DecidableEq, Repr

/-- A SQLAlchemy engine, as far as the repository configures it: the
connection URL string and the `fast_executemany` flag. -/
structure Engine where
  url : String
  fast_executemany : Bool
deriving DecidableEq, Repr

/-- `n` copies of the fill symbol `-`. -/
def dashes (n : Nat) : String := String.mk (List.replicate n (Char.ofNat 45))

/-- The bordered message printed by `close`:
`f'{fill_symbol * fill_length}\n{message_}\n{fill_symbol * fill_length}'`
with `fill_length = len(message_)`. -/
def borderMsg (m : String) : String :=
  dashes m.length ++ "\n" ++ m ++ "\n" ++ dashes m.length

/-- The connect banner built by `SQLSession.print_message` with the default
symbol `-`. -/
def bannerMessage (server db user : String) : String :=
  let l1 := "Server: " ++ server
  let l2 := "Database: " ++ db
  let l3 := "User: " ++ user
  let fill := dashes (max (max l1.length l2.length) l3.length)
  "Connected to\n" ++ fill ++ "\n" ++ l1 ++ "\n" ++ l2 ++ "\n" ++ l3 ++ "\n" ++ fill

/-- `make_engine` of the two subclasses.  `MSSQLSession.make_engine` builds
an `mssql+pyodbc` URL with a fixed ODBC driver identifier and
`fast_executemany=True`; `PostgreSQLSession.make_engine` builds a plain
`postgres` URL.  The stored `port` attribute is interpolated into the
f-string via `str`. -/
def make_engine (d : Dialect) (user password server : String) (port : PyVal)
    (db : String) : Engine :=
  match d with
  | .mssql =>
    { url := "mssql+pyodbc://" ++ user ++ ":" ++ password ++ "@" ++ server
        ++ ":" ++ port.pyStr ++ "/" ++ db
        ++ "?driver=ODBC+Driver+13+for+SQL+Server",
      fast_executemany := true }
  | .postgres =>
    { url := "postgres://" ++ user ++ ":" ++ password ++ "@" ++ server
        ++ ":" ++ port.pyStr ++ "/" ++ db,
      fast_executemany := false }

/-- The state of a constructed session.  `server`, `db`, `user` and
`password` are `String` because the constructor has validated them; `port`
is stored without any validation, so it stays a `PyVal`. -/
structure Session where
  dialect : Dialect
  server : String
  port : PyVal
  db : String
  user : String
  password : String
  engine : Engine
  is_connected : Bool
  is_silent : Bool

/-- An observable side effect: an interaction with the external driver
libraries or a print to standard output. -/
inductive Effect where
  | makeEngine (e : Engine)
  | connect (e : Engine)
  | printMsg (m : String)
  | readSql (query : String)
  | dfWrite (df : DataFrame) (name : String) (index : Bool) (schema : String)
      (if_exists : String)
  | rawCursor
  | cursorExec (stmt : String) (params : List PyVal)
  | cursorCommit
  | conClose

/-- `SQLSession.__init__`: validates `server`/`db` then `user`/`password`
as strings (raising `TypeError` before anything else happens), stores the
attributes, builds the engine, opens the connection, sets
`is_connected = True`, prints the banner unless silent, and records
`is_silent`. -/
def SQLSession.init (d : Dialect) (server port db user password : PyVal)
    (silent : Bool) : Except PyError Session × List Effect :=
  match server, db with
  | .str sv, .str dbn =>
    match user, password with
    | .str us, .str pw =>
      let engine := make_engine d us pw sv port dbn
      let s : Session :=
        { dialect := d, server := sv, port := port, db := dbn, user := us,
          password := pw, engine := engine, is_connected := true,
          is_silent := silent }
      (Except.ok s,
        [Effect.makeEngine engine, Effect.connect engine]
          ++ if silent then [] else [Effect.printMsg (bannerMessage sv dbn us)])
    | _, _ =>
      (Except.error
        ⟨PyErrClass.typeError, "user and password arguments should be strings",
          Option.none⟩, [])
  | _, _ =>
    (Except.error
      ⟨PyErrClass.typeError, "server and db arguments should be strings",
        Option.none⟩, [])

/-- Everything `SQLSession.close` produces: the updated session, the local
`message_`, whether `self.con.close()` was invoked on this call, and the
bordered text printed (`none` when silent). -/
structure CloseResult where
  session : Session
  message : String
  conClosed : Bool
  printed : Option String

/-- `SQLSession.close`: closes the connection and flips the flag when still
connected, otherwise only reports; never raises. -/
def Session.close (s : Session) : CloseResult :=
  if s.is_connected then
    { session := { s with is_connected := false },
      message := "Connection closed", conClosed := true,
      printed := if s.is_silent then Option.none
        else Option.some (borderMsg "Connection closed") }
  else
    { session := s, message := "Connection is already closed",
      conClosed := false,
      printed := if s.is_silent then Option.none
        else Option.some (borderMsg "Connection is already closed") }

/-- `SQLSession.__enter__` returns `self`. -/
def Session.enterScope (s : Session) : Session := s

/-- `SQLSession.__exit__` ignores the exception information and
unconditionally calls `close`. -/
def Session.exitScope (s : Session) (excClass : Option PyErrClass) :
    CloseResult :=
  s.close

/-- A `with session: body` block: enter the scope (which yields the session
itself), run the body — which may use and mutate the session and may raise —
then call `__exit__` on whichever way the body ended; a raised error
propagates after the exit handler has run. -/
def withScoped (s : Session) (body : Session → Session × Option PyError) :
    Session × Option PyError :=
  let r := body s.enterScope
  let c := r.1.exitScope (r.2.map PyError.cls)
  (c.session, r.2)

/-- `select_statement` of both subclasses.  `read_sql` stands for the
external `pd.read_sql(·, con=self.con)`.  Both dialects raise `TypeError`
for a non-string query before running anything; `MSSQLSession` prefixes the
query with `set nocount on; `. -/
def Session.select_statement (read_sql : String → DataFrame) (s : Session)
    (query : PyVal) : Except PyError DataFrame × List Effect :=
  match query with
  | .str q =>
    match s.dialect with
    | .mssql =>
      (Except.ok (read_sql ("set nocount on; " ++ q)),
        [Effect.readSql ("set nocount on; " ++ q)])
    | .postgres =>
      (Except.ok (read_sql q), [Effect.readSql q])
  | _ =>
    (Except.error
      ⟨PyErrClass.typeError, "query argument should be a string",
        Option.none⟩, [])

/-- The driver interaction of `MSSQLSession.exec_sp` once validation has
passed: build the placeholder template, obtain a raw cursor, execute the
`exec` statement with the parameters, and commit. -/
def mssqlExecSp (name : String) (ps : List PyVal) :
    Except PyError Unit × List Effect :=
  let params_template := String.intercalate ", " (List.replicate ps.length "?")
  (Except.ok (),
    [Effect.rawCursor,
      Effect.cursorExec ("set nocount on; exec " ++ name ++ " " ++ params_template) ps,
      Effect.cursorCommit])

/-- `exec_sp` of both subclasses.  `PostgreSQLSession.exec_sp` raises
`NotImplementedError` unconditionally.  `MSSQLSession.exec_sp` validates
`sp_name` as a string, treats `params=None` as the empty list, rejects any
other non-list `params` with `TypeError`, and otherwise executes. -/
def Session.exec_sp (s : Session) (sp_name params : PyVal) :
    Except PyError Unit × List Effect :=
  match s.dialect with
  | .postgres =>
    (Except.error ⟨PyErrClass.notImplementedError, "", Option.none⟩, [])
  | .mssql =>
    match sp_name with
    | .str name =>
      match params with
      | .none => mssqlExecSp name []
      | .list ps => mssqlExecSp name ps
      | _ =>
        (Except.error
          ⟨PyErrClass.typeError, "params argument should be a list",
            Option.none⟩, [])
    | _ =>
      (Except.error
        ⟨PyErrClass.typeError, "query argument should be a string",
          Option.none⟩, [])

/-- Python `str.split(sep)` for a one-character separator, over the
character list: splitting the empty string yields one empty part, and every
occurrence of the separator starts a new part. -/
def pySplitChar (sep : Char) : List Char → List (List Char)
  | [] => [[]]
  | c :: rest =>
    if c = sep then [] :: pySplitChar sep rest
    else
      match pySplitChar sep rest with
      | [] => [[c]]
      | g :: gs => (c :: g) :: gs

/-- Python `s.split(sep)` for a one-character separator. -/
def pySplit (sep : Char) (s : String) : List String :=
  (pySplitChar sep s.data).map String.mk

/-- `SQLSession.df_to_db`: validates `table_fullname` as a string, splits it
on `.` into exactly a schema and a table name — any other number of parts
makes the unpacking raise `ValueError`, which is re-raised as a plain
`Exception` chained from it — then calls `df.to_sql(...)` on the open
connection. -/
def Session.df_to_db (s : Session) (df : DataFrame) (table_fullname : PyVal)
    (index : Bool) (if_exists : String) : Except PyError Unit × List Effect :=
  match table_fullname with
  | .str t =>
    match pySplit (Char.ofNat 46) t with
    | [schema_name, table_name] =>
      (Except.ok (),
        [Effect.dfWrite df table_name index schema_name if_exists])
    | _ =>
      (Except.error
        ⟨PyErrClass.exception,
          "table_fullname argument should be like \"schema_name.table_name\"",
          Option.some PyErrClass.valueError⟩, [])
  | _ =>
    (Except.error
      ⟨PyErrClass.typeError, "table_fullname argument should be a string",
        Option.none⟩, [])

/-- The operations callable on a constructed session, for stating how the
session state evolves across any sequence of calls. -/
inductive Op where
  | close
  | enter
  | exitScope (excClass : Option PyErrClass)
  | selectStmt (query : PyVal)
  | execSp (sp_name params : PyVal)
  | dfToDb (df : DataFrame) (table_fullname : PyVal) (index : Bool)
      (if_exists : String)

/-- The session state after one operation.  Only `close` (and `__exit__`,
which calls it) assigns to any attribute; every other method leaves the
session state unchanged. -/
def Session.step (s : Session) : Op → Session
  | .close => s.close.session
  | .exitScope _ => s.close.session
  | .enter => s.enterScope
  | .selectStmt _ => s
  | .execSp _ _ => s
  | .dfToDb _ _ _ _ => s

/-- A concrete MSSQL session, as produced by a successful construction. -/
def demoMssql : Session :=
  { dialect := Dialect.mssql, server := "srv", port := PyVal.str "1433",
    db := "db", user := "u", password := "pw",
    engine := make_engine Dialect.mssql "u" "pw" "srv" (PyVal.str "1433") "db",
    is_connected := true, is_silent := false }

/-- A concrete PostgreSQL session, as produced by a successful
construction. -/
def demoPostgres : Session :=
  { dialect := Dialect.postgres, server := "srv", port := PyVal.str "5432",
    db := "db", user := "u", password := "pw",
    engine := make_engine Dialect.postgres "u" "pw" "srv" (PyVal.str "5432") "db",
    is_connected := true, is_silent := true }

/-- A concrete DataFrame for witnesses. -/
def demoDf : DataFrame := ⟨0⟩

/-- A concrete stand-in for the external `pd.read_sql`. -/
def demoReadSql : String → DataFrame := fun q => ⟨q.length⟩

/-! ## Lemmas and claim theorems -/

/-- One operation on a disconnected session leaves it disconnected: only
`close` (and `__exit__`) touch the flag, and `close` on a disconnected
session is a no-op on the state. -/
theorem step_keeps_disconnected (s : Session) (op : Op)
    (h : s.is_connected = false) : (s.step op).is_connected = false := by
  cases op <;> simp [Session.step, Session.close, Session.enterScope, h]

/-- No sequence of operations reconnects a disconnected session. -/
theorem foldl_keeps_disconnected (ops : List Op) (s : Session)
    (h : s.is_connected = false) :
    (ops.foldl Session.step s).is_connected = false := by
  induction ops generalizing s with
  | nil => exact h
  | cons op rest ih => exact ih _ (step_keeps_disconnected s op h)

/-- C2: whenever any of server, db, user or password is not a string, the
constructor fails with a `TypeError` and performs no effect at all — in
particular the engine is never built and no connection is opened. -/
theorem claim_C2 (d : Dialect) (server port db user password : PyVal)
    (silent : Bool)
    (h : (server.isStr && db.isStr && user.isStr && password.isStr) = false) :
    (SQLSession.init d server port db user password silent).2 = [] ∧
    ∃ e : PyError,
      (SQLSession.init d server port db user password silent).1 =
        Except.error e ∧ e.cls = PyErrClass.typeError := by
  cases server <;> cases db <;> cases user <;> cases password <;>
    first
      | exact ⟨rfl, _, rfl, rfl⟩
      | simp [PyVal.isStr] at h

/-- Witness for C2: a non-string server value is rejected. -/
theorem claim_C2_witness :
    ((PyVal.int 0).isStr && (PyVal.str "d").isStr && (PyVal.str "u").isStr
      && (PyVal.str "pw").isStr) = false ∧
    ((SQLSession.init Dialect.mssql (PyVal.int 0) (PyVal.str "1433")
        (PyVal.str "d") (PyVal.str "u") (PyVal.str "pw") true).2 = [] ∧
      ∃ e : PyError,
        (SQLSession.init Dialect.mssql (PyVal.int 0) (PyVal.str "1433")
          (PyVal.str "d") (PyVal.str "u") (PyVal.str "pw") true).1 =
            Except.error e ∧ e.cls = PyErrClass.typeError) :=
  ⟨rfl, claim_C2 Dialect.mssql (PyVal.int 0) (PyVal.str "1433")
    (PyVal.str "d") (PyVal.str "u") (PyVal.str "pw") true rfl⟩

/-- C10: the constructor never validates `port`.  With string server, db,
user and password, construction succeeds for every `port` value whatsoever
(no type error), the port is stored unchanged, and the engine is built from
that unchanged port. -/
theorem claim_C10 (d : Dialect) (sv dbn u pw : String) (port : PyVal)
    (silent : Bool) :
    ∃ s : Session,
      (SQLSession.init d (PyVal.str sv) port (PyVal.str dbn) (PyVal.str u)
        (PyVal.str pw) silent).1 = Except.ok s ∧
      s.port = port ∧ s.engine = make_engine d u pw sv port dbn :=
  ⟨_, rfl, rfl, rfl⟩

/-- C3: after every successful construction `is_connected` is `true`; after
`close()` it is `false`, and no sequence of further operations ever makes it
`true` again. -/
theorem claim_C3 (d : Dialect) (server port db user password : PyVal)
    (silent : Bool) (s : Session) (ops : List Op)
    (h : (SQLSession.init d server port db user password silent).1 =
      Except.ok s) :
    s.is_connected = true ∧
    s.close.session.is_connected = false ∧
    (ops.foldl Session.step s.close.session).is_connected = false := by
  cases server <;> cases db <;> cases user <;> cases password <;>
    simp [SQLSession.init] at h
  subst h
  refine ⟨rfl, rfl, ?_⟩
  exact foldl_keeps_disconnected ops _ rfl

/-- Witness for C3 at a concrete successful construction followed by a
concrete sequence of operations. -/
theorem claim_C3_witness :
    (SQLSession.init Dialect.mssql (PyVal.str "srv") (PyVal.str "1433")
      (PyVal.str "db") (PyVal.str "u") (PyVal.str "pw") false).1 =
      Except.ok demoMssql ∧
    (demoMssql.is_connected = true ∧
      demoMssql.close.session.is_connected = false ∧
      (([Op.close, Op.enter, Op.selectStmt (PyVal.str "select 1")].foldl
        Session.step demoMssql.close.session)).is_connected = false) :=
  ⟨rfl, claim_C3 Dialect.mssql (PyVal.str "srv") (PyVal.str "1433")
    (PyVal.str "db") (PyVal.str "u") (PyVal.str "pw") false demoMssql
    [Op.close, Op.enter, Op.selectStmt (PyVal.str "select 1")] rfl⟩

/-- C4: `close()` on an already-closed session is a no-op that never raises
(the embedding of `close` is a total function): the state is unchanged,
`is_connected` stays `false`, `self.con.close()` is not invoked, and the
message is `Connection is already closed` — which differs from the message
`Connection closed` reported by a close of a connected session. -/
theorem claim_C4 (s s2 : Session) (h : s.is_connected = false)
    (h2 : s2.is_connected = true) :
    s.close.session = s ∧
    s.close.session.is_connected = false ∧
    s.close.conClosed = false ∧
    s.close.message = "Connection is already closed" ∧
    (s.is_silent = false →
      s.close.printed = Option.some (borderMsg "Connection is already closed")) ∧
    s2.close.message = "Connection closed" ∧
    s2.close.message ≠ s.close.message := by
  refine ⟨?_, ?_, ?_, ?_, ?_, ?_, ?_⟩ <;>
    simp [Session.close, h, h2]

/-- Witness for C4: close `demoMssql` once, then observe the second close. -/
theorem claim_C4_witness :
    demoMssql.close.session.is_connected = false ∧
    demoMssql.is_connected = true ∧
    (demoMssql.close.session.close.session = demoMssql.close.session ∧
      demoMssql.close.session.close.session.is_connected = false ∧
      demoMssql.close.session.close.conClosed = false ∧
      demoMssql.close.session.close.message = "Connection is already closed" ∧
      (demoMssql.close.session.is_silent = false →
        demoMssql.close.session.close.printed =
          Option.some (borderMsg "Connection is already closed")) ∧
      demoMssql.close.message = "Connection closed" ∧
      demoMssql.close.message ≠ demoMssql.close.session.close.message) :=
  ⟨rfl, rfl, claim_C4 demoMssql.close.session demoMssql rfl rfl⟩

/-- C5: entering the scope returns the session itself, exiting calls
`close()` on every exit path — whether the body returned normally or raised
— so after the scope `is_connected` is `false` either way, and a raised
error still propagates. -/
theorem claim_C5 (s : Session) (body : Session → Session × Option PyError) :
    s.enterScope = s ∧
    (withScoped s body).1.is_connected = false ∧
    (withScoped s body).2 = (body s).2 := by
  refine ⟨rfl, ?_, rfl⟩
  unfold withScoped Session.exitScope Session.enterScope
  cases hc : (body s).1.is_connected <;> simp [Session.close, hc]

/-- C6: on a PostgreSQL session, `exec_sp` always raises
`NotImplementedError`, performs no driver interaction (empty effect trace),
and leaves the session state unchanged. -/
theorem claim_C6 (s : Session) (sp params : PyVal)
    (h : s.dialect = Dialect.postgres) :
    s.exec_sp sp params =
      (Except.error ⟨PyErrClass.notImplementedError, "", Option.none⟩, []) ∧
    s.step (Op.execSp sp params) = s := by
  constructor
  · simp [Session.exec_sp, h]
  · rfl

/-- Witness for C6: the spec scenario `exec_sp("sp1", [1, 2])` on a
dialect-B session. -/
theorem claim_C6_witness :
    demoPostgres.dialect = Dialect.postgres ∧
    (demoPostgres.exec_sp (PyVal.str "sp1")
        (PyVal.list [PyVal.int 1, PyVal.int 2]) =
      (Except.error ⟨PyErrClass.notImplementedError, "", Option.none⟩, []) ∧
      demoPostgres.step (Op.execSp (PyVal.str "sp1")
        (PyVal.list [PyVal.int 1, PyVal.int 2])) = demoPostgres) :=
  ⟨rfl, claim_C6 demoPostgres (PyVal.str "sp1")
    (PyVal.list [PyVal.int 1, PyVal.int 2]) rfl⟩

/-- C7: on either dialect, `select_statement` with a non-string query raises
`TypeError` and runs nothing over the connection (empty effect trace). -/
theorem claim_C7 (rs : String → DataFrame) (s : Session) (query : PyVal)
    (h : query.isStr = false) :
    Session.select_statement rs s query =
      (Except.error
        ⟨PyErrClass.typeError, "query argument should be a string",
          Option.none⟩, []) := by
  cases query <;> first
    | rfl
    | simp [PyVal.isStr] at h

/-- Witness for C7: the spec scenario `select_statement(123)`, on one
session of each dialect. -/
theorem claim_C7_witness :
    (PyVal.int 123).isStr = false ∧
    Session.select_statement demoReadSql demoMssql (PyVal.int 123) =
      (Except.error
        ⟨PyErrClass.typeError, "query argument should be a string",
          Option.none⟩, []) ∧
    Session.select_statement demoReadSql demoPostgres (PyVal.int 123) =
      (Except.error
        ⟨PyErrClass.typeError, "query argument should be a string",
          Option.none⟩, []) :=
  ⟨rfl, claim_C7 demoReadSql demoMssql (PyVal.int 123) rfl,
    claim_C7 demoReadSql demoPostgres (PyVal.int 123) rfl⟩

/-- C9: on an MSSQL session, `select_statement` with a string query runs
exactly the string `set nocount on; ` concatenated with the query over the
connection and returns what the external read produces on that string. -/
theorem claim_C9 (rs : String → DataFrame) (s : Session) (q : String)
    (h : s.dialect = Dialect.mssql) :
    Session.select_statement rs s (PyVal.str q) =
      (Except.ok (rs ("set nocount on; " ++ q)),
        [Effect.readSql ("set nocount on; " ++ q)]) := by
  simp [Session.select_statement, h]

/-- Witness for C9 on a concrete query. -/
theorem claim_C9_witness :
    demoMssql.dialect = Dialect.mssql ∧
    Session.select_statement demoReadSql demoMssql (PyVal.str "select 1") =
      (Except.ok (demoReadSql ("set nocount on; " ++ "select 1")),
        [Effect.readSql ("set nocount on; " ++ "select 1")]) :=
  ⟨rfl, claim_C9 demoReadSql demoMssql "select 1" rfl⟩

/-- C1, counterexample to the claim as stated: on the spec scenario
`writeTable(df, "onlytablename")` the split yields one part, the write is
never invoked, and the call fails — but the raised error is a plain
`Exception` (chained from the `ValueError` of the unpacking), not itself a
value error: `raise Exception(...) from e` raises an `Exception`
instance. -/
theorem claim_C1_counterexample :
    (pySplit (Char.ofNat 46) "onlytablename").length ≠ 2 ∧
    demoMssql.df_to_db demoDf (PyVal.str "onlytablename") false "fail" =
      (Except.error
        ⟨PyErrClass.exception,
          "table_fullname argument should be like \"schema_name.table_name\"",
          Option.some PyErrClass.valueError⟩, []) ∧
    PyErrClass.exception ≠ PyErrClass.valueError :=
  ⟨by decide, rfl, by decide⟩

/-- C1 as amended: for every string `table_fullname` that does not split on
the `.` separator into exactly two parts, `df_to_db` fails with a plain
`Exception` chained from the `ValueError` of the unpacking, and it fails
before any write to the connection is attempted — the effect trace is empty,
so the DataFrame write is never invoked. -/
theorem claim_C1_amended (s : Session) (df : DataFrame) (t : String)
    (index : Bool) (if_exists : String)
    (h : (pySplit (Char.ofNat 46) t).length ≠ 2) :
    s.df_to_db df (PyVal.str t) index if_exists =
      (Except.error
        ⟨PyErrClass.exception,
          "table_fullname argument should be like \"schema_name.table_name\"",
          Option.some PyErrClass.valueError⟩, []) := by
  unfold Session.df_to_db
  cases hs : pySplit (Char.ofNat 46) t with
  | nil => simp [hs]
  | cons a l =>
    cases l with
    | nil => simp [hs]
    | cons b l2 =>
      cases l2 with
      | nil => exact absurd (by simp [hs]) h
      | cons c l3 => simp [hs]

/-- Witness for the amended C1 on the spec scenario. -/
theorem claim_C1_witness :
    (pySplit (Char.ofNat 46) "onlytablename").length ≠ 2 ∧
    demoPostgres.df_to_db demoDf (PyVal.str "onlytablename") false "fail" =
      (Except.error
        ⟨PyErrClass.exception,
          "table_fullname argument should be like \"schema_name.table_name\"",
          Option.some PyErrClass.valueError⟩, []) :=
  ⟨by decide, claim_C1_amended demoPostgres demoDf "onlytablename" false "fail"
    (by decide)⟩

/-- C8, counterexample to the claim as stated: `params=None` is a
non-sequence value, yet `MSSQLSession.exec_sp` does not raise a type error
on it — `None` is replaced by the empty parameter list and the driver is
reached: a raw cursor is obtained, the `exec` statement is executed, and the
commit happens. -/
theorem claim_C8_counterexample :
    PyVal.none.isSequence = false ∧
    demoMssql.exec_sp (PyVal.str "sp1") PyVal.none =
      (Except.ok (),
        [Effect.rawCursor,
          Effect.cursorExec "set nocount on; exec sp1 " [],
          Effect.cursorCommit]) :=
  ⟨rfl, rfl⟩

/-- C8 as amended: on an MSSQL session, `exec_sp` with a non-string
stored-procedure name, or with a `params` argument that is neither `None`
nor a list, fails with a type error immediately, before any driver
interaction — the effect trace is empty, so no cursor is obtained and
nothing is executed or committed. -/
theorem claim_C8_amended (s : Session) (sp params : PyVal)
    (hd : s.dialect = Dialect.mssql)
    (h : sp.isStr = false ∨
      (params.isNone = false ∧ params.isList = false)) :
    ∃ e : PyError, s.exec_sp sp params = (Except.error e, []) ∧
      e.cls = PyErrClass.typeError := by
  unfold Session.exec_sp
  rw [hd]
  cases sp with
  | str name =>
    rcases h with h | ⟨h1, h2⟩
    · simp [PyVal.isStr] at h
    · cases params with
      | none => simp [PyVal.isNone] at h1
      | list xs => simp [PyVal.isList] at h2
      | str xs => exact ⟨_, rfl, rfl⟩
      | int n => exact ⟨_, rfl, rfl⟩
      | bool b => exact ⟨_, rfl, rfl⟩
  | int n => exact ⟨_, rfl, rfl⟩
  | bool b => exact ⟨_, rfl, rfl⟩
  | none => exact ⟨_, rfl, rfl⟩
  | list xs => exact ⟨_, rfl, rfl⟩

/-- Witness for the amended C8: an integer `params` value is rejected
before any driver interaction. -/
theorem claim_C8_witness :
    ((PyVal.str "sp1").isStr = false ∨
      ((PyVal.int 7).isNone = false ∧ (PyVal.int 7).isList = false)) ∧
    ∃ e : PyError,
      demoMssql.exec_sp (PyVal.str "sp1") (PyVal.int 7) =
        (Except.error e, []) ∧ e.cls = PyErrClass.typeError :=
  ⟨Or.inr ⟨rfl, rfl⟩,
    claim_C8_amended demoMssql (PyVal.str "sp1") (PyVal.int 7) rfl
      (Or.inr ⟨rfl, rfl⟩)⟩
